import Mathlib

/-!
Shallow embedding of the GitNotes synchronization layer:
`services/sync_manager.go`, `services/git_notes_service.go` and
`services/repository_service.go`.

The Git client (`GitService`, whose implementation lives outside the
sources given here) and the operating-system keychain are external
collaborators: the outcome of each of their calls is supplied by an
explicit environment record, and the functions below translate, branch
for branch, what the Go code does with those outcomes.  Mutex
acquisition and release are elided (each operation is given its
sequential semantics), the Go zero `time.Time` is `Option.none`, and
wall-clock instants are abstract `Nat` values.
-/

deriving instance DecidableEq for Except

namespace GitNotes

/-- The `SyncStatus` constants, sync_manager.go lines 20-31. -/
inductive SyncStatus
  | idle
  | checking
  | staging
  | committing
  | pulling
  | pushing
  | success
  | error
  | conflict
  | resolving
deriving DecidableEq

/-- The Go display string of each `SyncStatus` constant. -/
def SyncStatus.text : SyncStatus → String
  | .idle => "Idle"
  | .checking => "Checking for changes"
  | .staging => "Staging changes"
  | .committing => "Committing changes"
  | .pulling => "Pulling from remote"
  | .pushing => "Pushing to remote"
  | .success => "Sync completed successfully"
  | .error => "Sync error"
  | .conflict => "Conflict detected"
  | .resolving => "Resolving conflicts"

/-- An error surfaced by the external Git layer.  `performSync` only
inspects whether a pull failure wraps `ErrMergeConflict`
(sync_manager.go line 243); everything else is carried as text. -/
inductive GitErr
  | mergeConflict
  | other (msg : String)
deriving DecidableEq

/-- The `errors.As`/`errors.Is` test of sync_manager.go line 243. -/
def GitErr.isMergeConflict : GitErr → Bool
  | .mergeConflict => true
  | .other _ => false

/-- The `Error()` text of a Git-layer failure. -/
def GitErr.message : GitErr → String
  | .mergeConflict => "merge conflict detected"
  | .other m => m

/-- `SyncHistoryEntry`, sync_manager.go lines 45-51.  An absent
`conflictFiles` field is the empty list. -/
structure SyncHistoryEntry where
  timestamp : Nat
  status : SyncStatus
  message : String
  error : Option String
  conflictFiles : List String
deriving DecidableEq

/-- The mutable fields of `SyncManager`, sync_manager.go lines 54-66.
`ctxGen` counts how many times the cancellation context has been
cancelled and reissued (`sm.cancel(); sm.ctx, sm.cancel =
context.WithCancel(...)`); a change of `ctxGen` means the previous
context was cancelled and replaced.  `conflictStrategy` is a plain
string, as `ConflictStrategy` is a Go string type. -/
structure SyncManager where
  currentStatus : SyncStatus
  lastSyncTime : Option Nat
  ctxGen : Nat
  syncHistory : List SyncHistoryEntry
  maxHistorySize : Nat
  conflictStrategy : String
  currentConflicts : List String
deriving DecidableEq

/-- `NewSyncManager`, sync_manager.go lines 69-82. -/
def newSyncManager : SyncManager :=
  { currentStatus := .idle
    lastSyncTime := none
    ctxGen := 0
    syncHistory := []
    maxHistorySize := 100
    conflictStrategy := "manual"
    currentConflicts := [] }

/-- Lines 113-117 of `updateStatus`: append the entry, then keep only the
last `maxSize` entries (`sm.syncHistory[len(sm.syncHistory)-sm.maxHistorySize:]`). -/
def appendHistory (hist : List SyncHistoryEntry) (maxSize : Nat)
    (entry : SyncHistoryEntry) : List SyncHistoryEntry :=
  if (hist ++ [entry]).length > maxSize then
    (hist ++ [entry]).drop ((hist ++ [entry]).length - maxSize)
  else hist ++ [entry]

/-- `updateStatus`, sync_manager.go lines 85-118: set the status, update
`lastSyncTime` only when the status is Success, build the history entry
(recording the current conflict list only in the Conflict status), and
append it to the bounded history. -/
def updateStatus (s : SyncManager) (status : SyncStatus) (message : String)
    (err : Option String) (now : Nat) : SyncManager :=
  { s with
    currentStatus := status
    lastSyncTime := if status = SyncStatus.success then some now else s.lastSyncTime
    syncHistory := appendHistory s.syncHistory s.maxHistorySize
      { timestamp := now
        status := status
        message := message
        error := err
        conflictFiles :=
          if status = SyncStatus.conflict ∧ s.currentConflicts ≠ [] then
            s.currentConflicts
          else [] } }

/-- `SyncManager.DetectConflicts`, sync_manager.go lines 309-327.
`scan` is the outcome of the external conflict-marker scan
`gitService.DetectConflicts()`.  When files are found the conflict list
and the Conflict status are recorded; when none are found the conflict
list is cleared but the status is left untouched. -/
def smDetectConflicts (s : SyncManager) (scan : Except GitErr (List String))
    (now : Nat) : SyncManager × Except GitErr (List String) :=
  match scan with
  | .error e => (s, .error e)
  | .ok conflicts =>
    if conflicts ≠ [] then
      let s := { s with currentConflicts := conflicts }
      let s := updateStatus s .conflict
        ("Detected " ++ toString conflicts.length ++ " files with conflicts") none now
      (s, .ok conflicts)
    else
      ({ s with currentConflicts := [] }, .ok conflicts)

/-- `AbortSync`, sync_manager.go lines 330-363.  The cancellation context
is cancelled and reissued first, before the status is examined; the
"nothing to abort" rejection happens only afterwards. -/
def smAbortSync (s : SyncManager) (now : Nat) : SyncManager × Option String :=
  let s := { s with ctxGen := s.ctxGen + 1 }
  if s.currentStatus ≠ SyncStatus.conflict ∧ s.currentStatus ≠ SyncStatus.error then
    (s, some "cannot abort sync: no conflict or error to resolve")
  else if s.currentConflicts ≠ [] then
    let s := updateStatus s .idle "Sync aborted and conflicts cleared" none now
    ({ s with currentConflicts := [] }, none)
  else
    (updateStatus s .idle "Sync operation aborted" none now, none)

/-- `SetConflictStrategy`, sync_manager.go lines 366-371: no validation
at this layer. -/
def smSetConflictStrategy (s : SyncManager) (strategy : String) : SyncManager :=
  { s with conflictStrategy := strategy }

/-- Outcomes of the external calls made by `ResolveConflictWithStrategy`
(sync_manager.go lines 394-463): the subprocess listing of conflicted
files (`git diff --name-only --diff-filter=U`), the first failure of the
`git add -f` staging loop if any, `gitService.ResolveConflictsWithStrategy`,
and `gitService.CommitChanges`, plus the wall clock. -/
structure ResolveEnv where
  listConflicted : Except GitErr (List String)
  stageConflicted : Option GitErr
  resolveFiles : Option GitErr
  commitResult : Option GitErr
  now : Nat
deriving DecidableEq

/-- `ResolveConflictWithStrategy`, sync_manager.go lines 394-463.  A
strategy outside ours/theirs/both is rejected before any state is
touched.  Error-message texts follow the source (file names and quotes
inside Go format strings are elided). -/
def smResolveConflictWithStrategy (env : ResolveEnv) (strategy : String)
    (s : SyncManager) : SyncManager × Option String :=
  if strategy ≠ "ours" ∧ strategy ≠ "theirs" ∧ strategy ≠ "both" then
    (s, some ("invalid conflict resolution strategy: " ++ strategy))
  else
    let s := updateStatus s .resolving
      ("Resolving conflicts with strategy: " ++ strategy) none env.now
    if strategy = "both" then
      match env.listConflicted with
      | .error e =>
        (updateStatus s .error ("Failed to list conflicted files: " ++ e.message)
          (some e.message) env.now,
         some ("failed to list conflicted files: " ++ e.message))
      | .ok conflictedFiles =>
        if conflictedFiles = [] then
          (updateStatus s .success "No conflicts to resolve" none env.now, none)
        else
          match env.stageConflicted with
          | some e =>
            (updateStatus s .error ("Failed to stage conflicted file: " ++ e.message)
              (some e.message) env.now,
             some ("failed to stage conflicted file: " ++ e.message))
          | none =>
            match env.commitResult with
            | some e =>
              (updateStatus s .error ("Failed to commit conflict markers: " ++ e.message)
                (some e.message) env.now,
               some ("failed to commit conflict markers: " ++ e.message))
            | none =>
              (updateStatus s .success
                "Conflicts resolved, both changes kept with conflict markers" none env.now,
               none)
    else
      match env.resolveFiles with
      | some e =>
        (updateStatus s .error ("Failed to resolve conflicts using strategy " ++ strategy)
          (some e.message) env.now,
         some ("failed to resolve conflicts using strategy " ++ strategy))
      | none =>
        match env.commitResult with
        | some e =>
          (updateStatus s .error ("Failed to commit resolved conflicts: " ++ e.message)
            (some e.message) env.now,
           some ("failed to commit resolved conflicts: " ++ e.message))
        | none =>
          (updateStatus s .success ("Conflicts resolved using strategy " ++ strategy)
            none env.now, none)

/-- The Git-layer calls a sequencing pass can make, in the order the pass
makes them.  `commit` records the message handed to
`gitService.CommitChanges`. -/
inductive GitOp
  | hasLocalChanges
  | stage
  | commit (msg : String)
  | pull
  | detect
  | push
  | resolve (strategy : String)
deriving DecidableEq

/-- Outcomes of the external calls a single `performSync` pass can make.
`detectScan1` answers the conflict-marker scan run inside the pull
merge-conflict branch (line 245); `detectScan2` answers the
unconditional re-check after pull (line 276). -/
structure SyncEnv where
  hasLocalChanges : Except GitErr Bool
  stageResult : Option GitErr
  commitResult : Option GitErr
  pullResult : Option GitErr
  detectScan1 : Except GitErr (List String)
  detectScan2 : Except GitErr (List String)
  pushResult : Option GitErr
  resolveEnv : ResolveEnv
  now : Nat
deriving DecidableEq

/-- Result of one sequencing pass: the final manager state, the Go error
returned to the caller (as text), and the ordered trace of Git-layer
calls the pass performed. -/
structure SyncRunResult where
  state : SyncManager
  error : Option String
  trace : List GitOp
deriving DecidableEq

/-- sync_manager.go lines 275-298: the unconditional post-pull conflict
re-check (whose scan error is discarded: `conflicts, _ :=
sm.DetectConflicts()`), the push step, and the success record.  If the
re-check still finds conflicts the pass fails without touching the
status and without pushing. -/
def performSyncTail (env : SyncEnv) (s : SyncManager) : SyncRunResult :=
  let scanned := smDetectConflicts s env.detectScan2 env.now
  let s := scanned.1
  let conflicts := match scanned.2 with
    | .ok l => l
    | .error _ => []
  if conflicts ≠ [] then
    { state := s
      error := some ("unresolved merge conflicts detected in "
        ++ toString conflicts.length ++ " files")
      trace := [GitOp.detect] }
  else
    let s := updateStatus s .pushing "Pushing local changes to remote" none env.now
    match env.pushResult with
    | some e =>
      { state := updateStatus s .error "Failed to push changes" (some e.message) env.now
        error := some e.message
        trace := [GitOp.detect, GitOp.push] }
    | none =>
      { state := updateStatus s .success "Synchronization completed successfully" none env.now
        error := none
        trace := [GitOp.detect, GitOp.push] }

/-- sync_manager.go lines 231-273: the pull step and its merge-conflict
handling.  On a merge-conflict failure the conflicts are scanned and, if
any were found, the stored strategy decides: manual stops the pass with
the conflict state left as `DetectConflicts` recorded it; ours, theirs
or both attempt automatic resolution and continue on success; any other
stored strategy value falls through the Go switch and continues. -/
def performSyncPull (env : SyncEnv) (s : SyncManager) : SyncRunResult :=
  let s := updateStatus s .pulling "Pulling changes from remote" none env.now
  match env.pullResult with
  | none =>
    let sub := performSyncTail env s
    { sub with trace := GitOp.pull :: sub.trace }
  | some e =>
    if e.isMergeConflict then
      let scanned := smDetectConflicts s env.detectScan1 env.now
      let s := scanned.1
      match scanned.2 with
      | .error de =>
        { state := updateStatus s .error "Failed to detect conflicts" (some de.message) env.now
          error := some de.message
          trace := [GitOp.pull, GitOp.detect] }
      | .ok conflicts =>
        if conflicts ≠ [] then
          if s.conflictStrategy = "manual" then
            { state := s
              error := some ("merge conflicts detected: " ++ e.message)
              trace := [GitOp.pull, GitOp.detect] }
          else if s.conflictStrategy = "ours" ∨ s.conflictStrategy = "theirs"
              ∨ s.conflictStrategy = "both" then
            let strategy := s.conflictStrategy
            let resolved := smResolveConflictWithStrategy env.resolveEnv strategy s
            match resolved.2 with
            | some re =>
              { state := updateStatus resolved.1 .error "Failed to auto-resolve conflicts"
                  (some re) env.now
                error := some re
                trace := [GitOp.pull, GitOp.detect, GitOp.resolve strategy] }
            | none =>
              let sub := performSyncTail env resolved.1
              { sub with trace := [GitOp.pull, GitOp.detect, GitOp.resolve strategy] ++ sub.trace }
          else
            let sub := performSyncTail env s
            { sub with trace := [GitOp.pull, GitOp.detect] ++ sub.trace }
        else
          let sub := performSyncTail env s
          { sub with trace := [GitOp.pull, GitOp.detect] ++ sub.trace }
    else
      { state := updateStatus s .error "Failed to pull changes" (some e.message) env.now
        error := some e.message
        trace := [GitOp.pull] }

/-- `performSync`, sync_manager.go lines 190-298, for an uncancelled
context (every `ctx.Err()` check passes; interleavings of concurrent
passes are modelled separately below).  Check for local changes; if
dirty, stage everything and commit with the fixed default message; then
pull, handle conflicts, re-check, push. -/
def performSync (env : SyncEnv) (s : SyncManager) : SyncRunResult :=
  let s := updateStatus s .checking "Checking for local changes" none env.now
  match env.hasLocalChanges with
  | .error e =>
    { state := updateStatus s .error "Failed to check for local changes" (some e.message) env.now
      error := some e.message
      trace := [GitOp.hasLocalChanges] }
  | .ok hasChanges =>
    if hasChanges then
      let s := updateStatus s .staging "Staging local changes" none env.now
      match env.stageResult with
      | some e =>
        { state := updateStatus s .error "Failed to stage changes" (some e.message) env.now
          error := some e.message
          trace := [GitOp.hasLocalChanges, GitOp.stage] }
      | none =>
        let s := updateStatus s .committing "Committing local changes" none env.now
        match env.commitResult with
        | some e =>
          { state := updateStatus s .error "Failed to commit changes" (some e.message) env.now
            error := some e.message
            trace := [GitOp.hasLocalChanges, GitOp.stage,
              GitOp.commit "Auto-commit by GitNotes"] }
        | none =>
          let sub := performSyncPull env s
          { sub with trace := [GitOp.hasLocalChanges, GitOp.stage,
              GitOp.commit "Auto-commit by GitNotes"] ++ sub.trace }
    else
      let sub := performSyncPull env s
      { sub with trace := GitOp.hasLocalChanges :: sub.trace }

/-- The mutable fields of `RepositoryService` (repository_service.go
lines 14-20).  The keychain is modelled as the most recently stored
(url, token) pair; `hasRepository` is whether `rs.repository` is set. -/
structure RepositoryService where
  localRepoPath : String
  repoURL : String
  storedCred : Option (String × String)
  hasRepository : Bool
  isConnected : Bool
deriving DecidableEq

/-- `NewRepositoryService`, repository_service.go lines 23-28. -/
def newRepositoryService : RepositoryService :=
  { localRepoPath := ""
    repoURL := ""
    storedCred := none
    hasRepository := false
    isConnected := false }

/-- Outcomes of the external calls made while connecting: the keychain
write, the `os.Stat(localPath/.git)` probe, `git.PlainOpen`,
`os.MkdirAll` and `git.PlainClone`. -/
structure ConnectEnv where
  storeCredOk : Bool
  gitDirExists : Bool
  openOk : Bool
  mkdirOk : Bool
  cloneOk : Bool
deriving DecidableEq

/-- `cloneRepository`, repository_service.go lines 72-109.  A failed
credential lookup only logs a warning and proceeds unauthenticated, so
it does not appear as a branch here. -/
def cloneRepository (env : ConnectEnv) (rs : RepositoryService) :
    RepositoryService × Option String :=
  if ¬env.mkdirOk then (rs, some "error creating parent directories")
  else if ¬env.cloneOk then (rs, some "error cloning repository")
  else ({ rs with hasRepository := true, isConnected := true }, none)

/-- `ConnectRepository`, repository_service.go lines 34-69: validate the
inputs, store a supplied credential, record `repoURL` and
`localRepoPath`, then open the existing working copy or clone a fresh
one. -/
def connectRepository (env : ConnectEnv) (rs : RepositoryService)
    (repoURL localPath token : String) : RepositoryService × Option String :=
  if repoURL = "" then (rs, some "repository URL is required")
  else if localPath = "" then (rs, some "local path is required")
  else
    let stored : Except String RepositoryService :=
      if token ≠ "" then
        if env.storeCredOk then .ok { rs with storedCred := some (repoURL, token) }
        else .error "failed to store credentials"
      else .ok rs
    match stored with
    | .error e => (rs, some e)
    | .ok rs =>
      let rs := { rs with repoURL := repoURL, localRepoPath := localPath }
      if env.gitDirExists then
        if env.openOk then ({ rs with hasRepository := true, isConnected := true }, none)
        else (rs, some "error opening existing repository")
      else cloneRepository env rs

/-- The Go rendering of a timestamp ("Jan 2 15:04:05"); the abstract
instant is rendered as its decimal numeral. -/
def formatSyncTime (t : Nat) : String := toString t

/-- `strings.Join(parts, ", ")` as used by `GetSyncStatus`
(sync_manager.go line 145). -/
def joinComma : List String → String
  | [] => ""
  | a :: rest => if rest = [] then a else a ++ ", " ++ joinComma rest

/-- `SyncManager.GetSyncStatus`, sync_manager.go lines 121-150:
the status display text, then the last successful sync time if any,
then - in the Error state - the detail string obtained from the external
`gitService.GetErrorDetails()` (passed in as `errorDetails`) unless it
is the "no information" sentinel, then - in the Conflict state with a
non-empty conflict list - the conflicted-file count and, for at most
three files, the file names. -/
def smGetSyncStatus (s : SyncManager) (errorDetails : String) : String :=
  let base := s.currentStatus.text
  let base := match s.lastSyncTime with
    | some t => base ++ (" (Last sync: " ++ formatSyncTime t ++ ")")
    | none => base
  let base :=
    if s.currentStatus = SyncStatus.error ∧ errorDetails ≠ "No error information available"
    then base ++ (" - " ++ errorDetails) else base
  if s.currentStatus = SyncStatus.conflict ∧ s.currentConflicts ≠ [] then
    let base := base ++ (" - " ++ (toString s.currentConflicts.length ++ " files with conflicts"))
    if s.currentConflicts.length ≤ 3 then
      base ++ (": " ++ joinComma s.currentConflicts)
    else base
  else base

/-- The facade state (git_notes_service.go lines 14-20) restricted to
the fields the claims below touch. -/
structure GitNotesService where
  repoService : RepositoryService
  syncManager : Option SyncManager
deriving DecidableEq

/-- Facade `GetSyncStatus`, git_notes_service.go lines 189-198. -/
def gnsGetSyncStatus (g : GitNotesService) (errorDetails : String) : String :=
  match g.syncManager with
  | none => if ¬g.repoService.isConnected then "Disconnected" else "Connected"
  | some sm => smGetSyncStatus sm errorDetails

/-- Facade `SetConflictResolutionStrategy`, git_notes_service.go lines
340-365: precondition checks, then validation of the strategy string
against the closed enum before the manager-level setter is invoked. -/
def gnsSetConflictResolutionStrategy (g : GitNotesService) (strategy : String) :
    GitNotesService × Option String :=
  if ¬g.repoService.isConnected then (g, some "repository not connected")
  else
    match g.syncManager with
    | none => (g, some "sync manager not initialized")
    | some sm =>
      if strategy = "manual" ∨ strategy = "ours" ∨ strategy = "theirs"
          ∨ strategy = "both" then
        ({ g with syncManager := some (smSetConflictStrategy sm strategy) }, none)
      else (g, some ("invalid conflict resolution strategy: " ++ strategy))

/-! ### Interleaving model for concurrent triggers

`TriggerManualSync` (sync_manager.go lines 165-187) spawns `performSync`
in a fresh goroutine and waits on a completion channel.  It consults no
in-flight flag and takes no lock around the pass, so a trigger always
starts a new pass, whatever is already running.  A pass is abstracted to
its sequence of phase transitions; the scheduler below can run any
spawned pass one phase at a time. -/

/-- The environment of a pass with a clean working copy whose pull and
push both succeed with no conflicts. -/
def happyEnv : SyncEnv :=
  { hasLocalChanges := .ok false
    stageResult := none
    commitResult := none
    pullResult := none
    detectScan1 := .ok []
    detectScan2 := .ok []
    pushResult := none
    resolveEnv :=
      { listConflicted := .ok []
        stageConflicted := none
        resolveFiles := none
        commitResult := none
        now := 0 }
    now := 0 }

/-- The phase transitions of one happy-path pass. -/
def happyStatuses : List SyncStatus := [.checking, .pulling, .pushing, .success]

/-- A spawned pass: the phases it has already performed and those still
to come. -/
structure PassState where
  executed : List SyncStatus
  remaining : List SyncStatus
deriving DecidableEq

/-- The manager plus every pass spawned so far; `phaseLog` is the global
order in which phase transitions hit the shared state. -/
structure SyncSystem where
  phaseLog : List SyncStatus
  passes : List PassState
deriving DecidableEq

def initSystem : SyncSystem := { phaseLog := [], passes := [] }

/-- A `TriggerManualSync` call: spawn a pass unconditionally - the Go
code checks nothing before starting the goroutine. -/
def triggerSync (sys : SyncSystem) : SyncSystem :=
  { sys with passes := sys.passes ++ [{ executed := [], remaining := happyStatuses }] }

/-- The scheduler lets pass `i` perform its next phase transition. -/
def stepPass (i : Nat) (sys : SyncSystem) : SyncSystem :=
  match sys.passes[i]? with
  | some p =>
    match p.remaining with
    | [] => sys
    | st :: rest =>
      { phaseLog := sys.phaseLog ++ [st]
        passes := sys.passes.set i { executed := p.executed ++ [st], remaining := rest } }
  | none => sys

/-- States of the system reachable by any interleaving of triggers and
pass steps. -/
inductive SyncReachable : SyncSystem → Prop
  | init : SyncReachable initSystem
  | trigger {sys} : SyncReachable sys → SyncReachable (triggerSync sys)
  | step {sys} (i : Nat) : SyncReachable sys → SyncReachable (stepPass i sys)

/-- A pass is executing: it has performed a phase and has more to come. -/
def PassState.inFlight (p : PassState) : Bool :=
  !p.executed.isEmpty && !p.remaining.isEmpty

/-- How many passes are executing at this instant. -/
def concurrentPasses (sys : SyncSystem) : Nat :=
  (sys.passes.filter PassState.inFlight).length

/-! ### Concrete instances used by the counterexamples and witnesses -/

/-- Trigger, run one phase of the first pass, trigger again while the
first pass is mid-flight, run one phase of the second pass. -/
def c1System : SyncSystem :=
  stepPass 1 (triggerSync (stepPass 0 (triggerSync initSystem)))

/-- Manager state after a conflict-marker scan found `notes/a.md`. -/
def c2State1 : SyncManager :=
  (smDetectConflicts newSyncManager (.ok ["notes/a.md"]) 1).1

/-- ... followed by a scan that found nothing. -/
def c2State2 : SyncManager := (smDetectConflicts c2State1 (.ok []) 2).1

/-- A resolution environment in which every external call succeeds. -/
def okResolveEnv : ResolveEnv :=
  { listConflicted := .ok []
    stageConflicted := none
    resolveFiles := none
    commitResult := none
    now := 7 }

/-- A pass environment: clean working copy, pull fails with a merge
conflict, both scans find `notes/a.md`, automatic resolution succeeds. -/
def c3Env : SyncEnv :=
  { hasLocalChanges := .ok false
    stageResult := none
    commitResult := none
    pullResult := some GitErr.mergeConflict
    detectScan1 := .ok ["notes/a.md"]
    detectScan2 := .ok ["notes/a.md"]
    pushResult := none
    resolveEnv := okResolveEnv
    now := 5 }

/-- A manager whose stored strategy is `ours`. -/
def c3Start : SyncManager := smSetConflictStrategy newSyncManager "ours"

/-- A history entry used to build a manager at full history capacity. -/
def c4Entry : SyncHistoryEntry :=
  { timestamp := 0, status := .idle, message := "", error := none, conflictFiles := [] }

/-- A manager whose history already holds 100 entries. -/
def c4Full : SyncManager :=
  { newSyncManager with syncHistory := List.replicate 100 c4Entry }

/-- A pass environment: clean working copy, pull fails with a merge
conflict, but the conflict-marker scans find no files. -/
def c5Env : SyncEnv :=
  { hasLocalChanges := .ok false
    stageResult := none
    commitResult := none
    pullResult := some GitErr.mergeConflict
    detectScan1 := .ok []
    detectScan2 := .ok []
    pushResult := none
    resolveEnv := okResolveEnv
    now := 3 }

/-- A pass environment: dirty working copy, pull fails with a merge
conflict, the scan finds `notes/a.md`. -/
def c5ManualEnv : SyncEnv :=
  { hasLocalChanges := .ok true
    stageResult := none
    commitResult := none
    pullResult := some GitErr.mergeConflict
    detectScan1 := .ok ["notes/a.md"]
    detectScan2 := .ok []
    pushResult := none
    resolveEnv := okResolveEnv
    now := 3 }

/-- A manager in the Error state (a failed pull was recorded). -/
def c6ErrorState : SyncManager :=
  updateStatus newSyncManager .error "Failed to pull changes" (some "boom") 4

/-- A connected facade holding a fresh sync manager. -/
def c7Service : GitNotesService :=
  { repoService := { newRepositoryService with isConnected := true }
    syncManager := some newSyncManager }

/-- A pass environment with a dirty working copy where everything
succeeds, parametrised by the wall clock. -/
def c8Env (now : Nat) : SyncEnv :=
  { hasLocalChanges := .ok true
    stageResult := none
    commitResult := none
    pullResult := none
    detectScan1 := .ok []
    detectScan2 := .ok []
    pushResult := none
    resolveEnv := okResolveEnv
    now := now }

/-- The messages handed to `gitService.CommitChanges` during a pass. -/
def commitMessages (r : SyncRunResult) : List String :=
  r.trace.filterMap fun op =>
    match op with
    | GitOp.commit m => some m
    | _ => none

/-- A facade with no repository connection and no sync manager. -/
def c10Disconnected : GitNotesService :=
  { repoService := newRepositoryService, syncManager := none }

/-- A facade whose manager is in the Error state. -/
def c10Error : GitNotesService :=
  { repoService := { newRepositoryService with isConnected := true }
    syncManager := some c6ErrorState }

/-- A facade whose manager is in the Conflict state with one conflicted
file recorded. -/
def c10Conflicted : GitNotesService :=
  { repoService := { newRepositoryService with isConnected := true }
    syncManager := some c2State1 }

/-- A connection environment in which the keychain write succeeds, no
working copy exists yet, and the clone fails. -/
def c9Env : ConnectEnv :=
  { storeCredOk := true
    gitDirExists := false
    openOk := false
    mkdirOk := true
    cloneOk := false }

/-- Fold a sequence of `updateStatus` calls over a manager; every state
mutation of the manager appends to the history through `updateStatus`,
so this ranges over every reachable history. -/
def applyUpdates (ops : List (SyncStatus × String × Option String × Nat))
    (s : SyncManager) : SyncManager :=
  ops.foldl (fun acc op => updateStatus acc op.1 op.2.1 op.2.2.1 op.2.2.2) s

/-! ### Helper lemmas -/

theorem updateStatus_currentStatus (s : SyncManager) (st : SyncStatus) (m : String)
    (e : Option String) (now : Nat) : (updateStatus s st m e now).currentStatus = st := rfl

theorem updateStatus_lastSyncTime (s : SyncManager) (st : SyncStatus) (m : String)
    (e : Option String) (now : Nat) :
    (updateStatus s st m e now).lastSyncTime =
      (if st = SyncStatus.success then some now else s.lastSyncTime) := rfl

theorem updateStatus_ctxGen (s : SyncManager) (st : SyncStatus) (m : String)
    (e : Option String) (now : Nat) : (updateStatus s st m e now).ctxGen = s.ctxGen := rfl

theorem updateStatus_maxHistorySize (s : SyncManager) (st : SyncStatus) (m : String)
    (e : Option String) (now : Nat) :
    (updateStatus s st m e now).maxHistorySize = s.maxHistorySize := rfl

theorem updateStatus_conflictStrategy (s : SyncManager) (st : SyncStatus) (m : String)
    (e : Option String) (now : Nat) :
    (updateStatus s st m e now).conflictStrategy = s.conflictStrategy := rfl

theorem updateStatus_currentConflicts (s : SyncManager) (st : SyncStatus) (m : String)
    (e : Option String) (now : Nat) :
    (updateStatus s st m e now).currentConflicts = s.currentConflicts := rfl

theorem updateStatus_syncHistory (s : SyncManager) (st : SyncStatus) (m : String)
    (e : Option String) (now : Nat) :
    (updateStatus s st m e now).syncHistory =
      appendHistory s.syncHistory s.maxHistorySize
        { timestamp := now, status := st, message := m, error := e,
          conflictFiles :=
            if st = SyncStatus.conflict ∧ s.currentConflicts ≠ [] then
              s.currentConflicts
            else [] } := rfl

/-- Appending to the bounded history never produces more than `maxSize`
entries. -/
theorem appendHistory_length_le (hist : List SyncHistoryEntry) (maxSize : Nat)
    (entry : SyncHistoryEntry) : (appendHistory hist maxSize entry).length ≤ maxSize := by
  unfold appendHistory
  split
  · rename_i h
    simp only [List.length_drop, List.length_append, List.length_cons,
      List.length_nil] at *
    omega
  · rename_i h
    simp only [not_lt, List.length_append, List.length_cons, List.length_nil] at *
    omega

/-- At capacity 100 the append keeps the newest 100 entries: the oldest
entry is evicted and the rest keep their order. -/
theorem appendHistory_at_capacity (hist : List SyncHistoryEntry)
    (entry : SyncHistoryEntry) (h : hist.length = 100) :
    appendHistory hist 100 entry = hist.drop 1 ++ [entry] := by
  unfold appendHistory
  have hl : (hist ++ [entry]).length = 101 := by simp [h]
  rw [if_pos (by rw [hl]; omega), hl]
  rw [show 101 - 100 = 1 from rfl]
  exact List.drop_append_of_le_length (by omega)

/-- Below capacity the append is a plain append. -/
theorem appendHistory_below_capacity (hist : List SyncHistoryEntry)
    (entry : SyncHistoryEntry) (h : hist.length < 100) :
    appendHistory hist 100 entry = hist ++ [entry] := by
  unfold appendHistory
  rw [if_neg (by simp; omega)]

theorem applyUpdates_history_le (ops : List (SyncStatus × String × Option String × Nat))
    (s : SyncManager) (hmax : s.maxHistorySize = 100)
    (h : s.syncHistory.length ≤ 100) :
    (applyUpdates ops s).syncHistory.length ≤ 100 := by
  induction ops generalizing s with
  | nil => exact h
  | cons op rest ih =>
    have hstep : applyUpdates (op :: rest) s
        = applyUpdates rest (updateStatus s op.1 op.2.1 op.2.2.1 op.2.2.2) := rfl
    rw [hstep]
    refine ih _ (by rw [updateStatus_maxHistorySize]; exact hmax) ?_
    rw [updateStatus_syncHistory, hmax]
    exact appendHistory_length_le _ _ _

/-! ### Claims -/

/-- C2, counterexample: the biconditional "currentConflicts is non-empty
iff currentStatus = Conflict" is violated by a reachable state.  After a
DetectConflicts call that found `notes/a.md` (status Conflict) a second
DetectConflicts call that finds zero conflicted files clears
`currentConflicts` but leaves `currentStatus` at Conflict, so the
resulting state has an empty conflict set in the Conflict status -
refuting in particular the clause that a zero-conflict DetectConflicts
call leaves the state satisfying the biconditional. -/
theorem c2_biconditional_fails :
    c2State2.currentStatus = SyncStatus.conflict ∧
    c2State2.currentConflicts = [] ∧
    ¬(c2State2.currentConflicts ≠ [] ↔ c2State2.currentStatus = SyncStatus.conflict) := by
  decide

/-- C2 (amended): a DetectConflicts call whose scan finds a non-empty
file list establishes the biconditional (it records the list and sets
status Conflict); a call whose scan finds zero files clears
`currentConflicts` but leaves `currentStatus` unchanged, so the
biconditional can fail afterwards (a manager already in the Conflict
status stays there with an empty conflict set). -/
theorem c2_detectConflicts_post (s : SyncManager) (l : List String) (now : Nat) :
    (smDetectConflicts s (Except.ok l) now).1.currentConflicts = l ∧
    (smDetectConflicts s (Except.ok l) now).1.currentStatus =
      (if l = [] then s.currentStatus else SyncStatus.conflict) := by
  by_cases h : l = [] <;>
    simp [smDetectConflicts, h, updateStatus_currentStatus, updateStatus_currentConflicts]

/-- C3, counterexample: a sequencing pass that ends in the Conflict
state with an error returned nevertheless updates `lastSyncTime`.  With
strategy `ours`, pull fails with a merge conflict, automatic resolution
succeeds (recording the Success status and stamping `lastSyncTime`), and
the post-pull re-check still finds `notes/a.md`, so the pass ends at
Conflict with an error - yet `lastSyncTime` changed from `none` to
`some 7`. -/
theorem c3_conflicted_pass_updates_lastSyncTime :
    (performSync c3Env c3Start).state.currentStatus = SyncStatus.conflict ∧
    ((performSync c3Env c3Start).error).isSome = true ∧
    (performSync c3Env c3Start).state.lastSyncTime ≠ c3Start.lastSyncTime := by
  decide

/-- C3 (amended): `lastSyncTime` is stamped exactly by status updates
that record the Success status; a pass that fails without ever
recording Success (for example a pull failure that is not a merge
conflict) leaves it unchanged, but any operation that records Success -
including an automatic conflict resolution inside a pass that later
still ends at Conflict, or a standalone successful
ResolveConflictWithStrategy - also updates it. -/
theorem c3_lastSyncTime_success_only (s : SyncManager) (st : SyncStatus) (m : String)
    (e : Option String) (now : Nat) (env : SyncEnv) (msg : String)
    (hchk : env.hasLocalChanges = Except.ok false)
    (hpull : env.pullResult = some (GitErr.other msg)) :
    ((updateStatus s st m e now).lastSyncTime
        = if st = SyncStatus.success then some now else s.lastSyncTime) ∧
    ((performSync env s).state.currentStatus = SyncStatus.error ∧
      (performSync env s).state.lastSyncTime = s.lastSyncTime) := by
  refine ⟨rfl, ?_⟩
  simp [performSync, performSyncPull, hchk, hpull, GitErr.isMergeConflict,
    updateStatus_currentStatus, updateStatus_lastSyncTime]

theorem c3_lastSyncTime_success_only_witness :
    c3Env.hasLocalChanges = Except.ok false ∧
    c3Env.pullResult = some GitErr.mergeConflict ∧
    (let env5 : SyncEnv := { c3Env with pullResult := some (GitErr.other "boom") }
     env5.hasLocalChanges = Except.ok false ∧
     env5.pullResult = some (GitErr.other "boom") ∧
     ((updateStatus newSyncManager SyncStatus.checking "m" none 2).lastSyncTime
        = if SyncStatus.checking = SyncStatus.success then some 2
          else newSyncManager.lastSyncTime) ∧
     (performSync env5 newSyncManager).state.currentStatus = SyncStatus.error ∧
     (performSync env5 newSyncManager).state.lastSyncTime = newSyncManager.lastSyncTime) := by
  refine ⟨rfl, rfl, rfl, rfl, ?_⟩
  have h := c3_lastSyncTime_success_only newSyncManager SyncStatus.checking "m" none 2
    { c3Env with pullResult := some (GitErr.other "boom") } "boom" rfl rfl
  exact ⟨h.1, h.2.1, h.2.2⟩

/-- C4: the sync history never exceeds its capacity of 100 entries over
any sequence of status updates (every mutation of the manager appends
through `updateStatus`), and once at capacity each further append evicts
exactly the oldest entry while preserving the order of the rest;
below capacity an append is a plain append. -/
theorem c4_history_capacity_fifo :
    (∀ ops, ((applyUpdates ops newSyncManager).syncHistory).length ≤ 100) ∧
    (∀ (s : SyncManager) (st : SyncStatus) (m : String) (e : Option String) (now : Nat),
      s.maxHistorySize = 100 → s.syncHistory.length = 100 →
      ∃ entry, (updateStatus s st m e now).syncHistory
          = s.syncHistory.drop 1 ++ [entry]) ∧
    (∀ (s : SyncManager) (st : SyncStatus) (m : String) (e : Option String) (now : Nat),
      s.maxHistorySize = 100 → s.syncHistory.length < 100 →
      ∃ entry, (updateStatus s st m e now).syncHistory = s.syncHistory ++ [entry]) := by
  refine ⟨fun ops => applyUpdates_history_le ops newSyncManager rfl (by simp [newSyncManager]),
    fun s st m e now hmax hlen => ?_, fun s st m e now hmax hlen => ?_⟩
  · simp only [updateStatus_syncHistory, hmax, appendHistory_at_capacity _ _ hlen]
    exact ⟨_, rfl⟩
  · simp only [updateStatus_syncHistory, hmax, appendHistory_below_capacity _ _ hlen]
    exact ⟨_, rfl⟩

theorem c4_history_capacity_fifo_witness :
    c4Full.maxHistorySize = 100 ∧ c4Full.syncHistory.length = 100 ∧
    (∃ entry, (updateStatus c4Full SyncStatus.idle "m" none 3).syncHistory
        = c4Full.syncHistory.drop 1 ++ [entry]) ∧
    newSyncManager.maxHistorySize = 100 ∧ newSyncManager.syncHistory.length < 100 ∧
    (∃ entry, (updateStatus newSyncManager SyncStatus.idle "m" none 3).syncHistory
        = newSyncManager.syncHistory ++ [entry]) :=
  ⟨rfl, by simp [c4Full],
   c4_history_capacity_fifo.2.1 c4Full SyncStatus.idle "m" none 3 rfl (by simp [c4Full]),
   rfl, by decide,
   c4_history_capacity_fifo.2.2 newSyncManager SyncStatus.idle "m" none 3 rfl (by decide)⟩

/-- C6, counterexample: calling AbortSync in the Idle state does return a
"nothing to abort" error, but it does NOT leave the cancellation context
unchanged: the context is cancelled and replaced before the status is
examined (`ctxGen` changes from 0 to 1). -/
theorem c6_abort_in_idle_replaces_context :
    newSyncManager.currentStatus = SyncStatus.idle ∧
    ((smAbortSync newSyncManager 1).2).isSome = true ∧
    (smAbortSync newSyncManager 1).1.ctxGen ≠ newSyncManager.ctxGen := by
  decide

/-- C6 (amended): AbortSync succeeds only in the Conflict or Error
states - in the Conflict case with conflicts recorded it clears
`currentConflicts` and returns the status to Idle, and in the Error case
it returns to Idle - and in any other state it returns the "nothing to
abort" error leaving status, conflicts, history, strategy and
`lastSyncTime` unchanged; in every case, however, the cancellation
context is cancelled and reissued before the status check. -/
theorem c6_abort_semantics (s : SyncManager) (now : Nat) :
    (s.currentStatus ≠ SyncStatus.conflict → s.currentStatus ≠ SyncStatus.error →
      (smAbortSync s now).2 = some "cannot abort sync: no conflict or error to resolve" ∧
      (smAbortSync s now).1 = { s with ctxGen := s.ctxGen + 1 }) ∧
    (s.currentStatus = SyncStatus.conflict → s.currentConflicts ≠ [] →
      (smAbortSync s now).2 = none ∧
      (smAbortSync s now).1.currentStatus = SyncStatus.idle ∧
      (smAbortSync s now).1.currentConflicts = [] ∧
      (smAbortSync s now).1.ctxGen = s.ctxGen + 1) ∧
    (s.currentStatus = SyncStatus.error →
      (smAbortSync s now).2 = none ∧
      (smAbortSync s now).1.currentStatus = SyncStatus.idle ∧
      (smAbortSync s now).1.ctxGen = s.ctxGen + 1) := by
  refine ⟨fun h1 h2 => ?_, fun h1 h2 => ?_, fun h1 => ?_⟩
  · simp [smAbortSync, h1, h2]
  · simp [smAbortSync, h1, h2, updateStatus_currentStatus, updateStatus_ctxGen]
  · by_cases hc : s.currentConflicts = [] <;>
      simp [smAbortSync, h1, hc, updateStatus_currentStatus, updateStatus_ctxGen]

theorem c6_abort_semantics_witness :
    (newSyncManager.currentStatus ≠ SyncStatus.conflict ∧
     newSyncManager.currentStatus ≠ SyncStatus.error ∧
     (smAbortSync newSyncManager 1).2
        = some "cannot abort sync: no conflict or error to resolve" ∧
     (smAbortSync newSyncManager 1).1
        = { newSyncManager with ctxGen := newSyncManager.ctxGen + 1 }) ∧
    (c2State1.currentStatus = SyncStatus.conflict ∧ c2State1.currentConflicts ≠ [] ∧
     (smAbortSync c2State1 2).2 = none ∧
     (smAbortSync c2State1 2).1.currentStatus = SyncStatus.idle ∧
     (smAbortSync c2State1 2).1.currentConflicts = []) ∧
    (c6ErrorState.currentStatus = SyncStatus.error ∧
     (smAbortSync c6ErrorState 5).2 = none ∧
     (smAbortSync c6ErrorState 5).1.currentStatus = SyncStatus.idle) := by
  refine ⟨⟨by decide, by decide, ?_, ?_⟩, ⟨by decide, by decide, ?_, ?_, ?_⟩,
    ⟨by decide, ?_, ?_⟩⟩
  · exact ((c6_abort_semantics newSyncManager 1).1 (by decide) (by decide)).1
  · exact ((c6_abort_semantics newSyncManager 1).1 (by decide) (by decide)).2
  · exact ((c6_abort_semantics c2State1 2).2.1 (by decide) (by decide)).1
  · exact ((c6_abort_semantics c2State1 2).2.1 (by decide) (by decide)).2.1
  · exact ((c6_abort_semantics c2State1 2).2.1 (by decide) (by decide)).2.2.1
  · exact ((c6_abort_semantics c6ErrorState 5).2.2 (by decide)).1
  · exact ((c6_abort_semantics c6ErrorState 5).2.2 (by decide)).2.1

/-- C7: a strategy string outside the closed set
manual/ours/theirs/both makes the facade setter return the
invalid-strategy error with the whole facade state (and so the stored
strategy) unchanged, and a strategy outside ours/theirs/both makes
ResolveConflictWithStrategy return the invalid-strategy error with the
manager state entirely unchanged (no status change, no history entry,
no conflict-set change). -/
theorem c7_invalid_strategy_rejected (g : GitNotesService) (sm : SyncManager)
    (renv : ResolveEnv) (s : SyncManager) (str1 str2 : String)
    (hconn : g.repoService.isConnected = true)
    (hsm : g.syncManager = some sm)
    (h1 : str1 ≠ "manual" ∧ str1 ≠ "ours" ∧ str1 ≠ "theirs" ∧ str1 ≠ "both")
    (h2 : str2 ≠ "ours" ∧ str2 ≠ "theirs" ∧ str2 ≠ "both") :
    gnsSetConflictResolutionStrategy g str1
        = (g, some ("invalid conflict resolution strategy: " ++ str1)) ∧
    smResolveConflictWithStrategy renv str2 s
        = (s, some ("invalid conflict resolution strategy: " ++ str2)) := by
  obtain ⟨a, b, c, d⟩ := h1
  obtain ⟨x, y, z⟩ := h2
  constructor
  · simp [gnsSetConflictResolutionStrategy, hconn, hsm, a, b, c, d]
  · simp [smResolveConflictWithStrategy, x, y, z]

theorem c7_invalid_strategy_rejected_witness :
    c7Service.repoService.isConnected = true ∧
    c7Service.syncManager = some newSyncManager ∧
    ("bogus" ≠ "manual" ∧ "bogus" ≠ "ours" ∧ "bogus" ≠ "theirs" ∧ "bogus" ≠ "both") ∧
    ("manual" ≠ "ours" ∧ "manual" ≠ "theirs" ∧ "manual" ≠ "both") ∧
    gnsSetConflictResolutionStrategy c7Service "bogus"
        = (c7Service, some ("invalid conflict resolution strategy: " ++ "bogus")) ∧
    smResolveConflictWithStrategy okResolveEnv "manual" newSyncManager
        = (newSyncManager, some ("invalid conflict resolution strategy: " ++ "manual")) := by
  refine ⟨rfl, rfl, by decide, by decide, ?_, ?_⟩
  · exact (c7_invalid_strategy_rejected c7Service newSyncManager okResolveEnv
      newSyncManager "bogus" "manual" rfl rfl (by decide) (by decide)).1
  · exact (c7_invalid_strategy_rejected c7Service newSyncManager okResolveEnv
      newSyncManager "bogus" "manual" rfl rfl (by decide) (by decide)).2

/-- C5, counterexample: when the pull step fails with a merge-conflict
error under the manual strategy but the conflict-marker scan finds zero
files, the pass does NOT stop at Conflict with an error - it falls
through, invokes push, and ends at Success with no error. -/
theorem c5_empty_scan_still_pushes :
    newSyncManager.conflictStrategy = "manual" ∧
    c5Env.pullResult = some GitErr.mergeConflict ∧
    c5Env.detectScan1 = Except.ok [] ∧
    (performSync c5Env newSyncManager).error = none ∧
    (performSync c5Env newSyncManager).state.currentStatus = SyncStatus.success ∧
    GitOp.push ∈ (performSync c5Env newSyncManager).trace := by
  decide

/-- C5 (amended): if the pull step fails with a merge-conflict error,
the strategy is manual, and the conflict-marker scan finds at least one
file, then the pass stops with status Conflict, `currentConflicts` equal
to the scanned list, an error returned to the caller, and push is never
invoked; when the scan finds no files the pass instead continues to
push. -/
theorem c5_manual_conflict_stops (env : SyncEnv) (s : SyncManager) (b : Bool)
    (e : GitErr) (l : List String)
    (hstrat : s.conflictStrategy = "manual")
    (hchk : env.hasLocalChanges = Except.ok b)
    (hstage : env.stageResult = none)
    (hcommit : env.commitResult = none)
    (hpull : env.pullResult = some e)
    (hmc : e.isMergeConflict = true)
    (hscan : env.detectScan1 = Except.ok l)
    (hne : l ≠ []) :
    (performSync env s).state.currentStatus = SyncStatus.conflict ∧
    (performSync env s).state.currentConflicts = l ∧
    (performSync env s).error = some ("merge conflicts detected: " ++ e.message) ∧
    GitOp.push ∉ (performSync env s).trace := by
  have he : e = GitErr.mergeConflict := by
    cases e
    · rfl
    · simp [GitErr.isMergeConflict] at hmc
  subst he
  cases b <;>
    simp [performSync, performSyncPull, smDetectConflicts, hstrat, hchk, hstage,
      hcommit, hpull, hscan, hne, GitErr.isMergeConflict,
      updateStatus_currentStatus, updateStatus_currentConflicts,
      updateStatus_conflictStrategy]

theorem c5_manual_conflict_stops_witness :
    newSyncManager.conflictStrategy = "manual" ∧
    c5ManualEnv.hasLocalChanges = Except.ok true ∧
    c5ManualEnv.stageResult = none ∧
    c5ManualEnv.commitResult = none ∧
    c5ManualEnv.pullResult = some GitErr.mergeConflict ∧
    GitErr.mergeConflict.isMergeConflict = true ∧
    c5ManualEnv.detectScan1 = Except.ok ["notes/a.md"] ∧
    (performSync c5ManualEnv newSyncManager).state.currentStatus = SyncStatus.conflict ∧
    (performSync c5ManualEnv newSyncManager).state.currentConflicts = ["notes/a.md"] ∧
    (performSync c5ManualEnv newSyncManager).error
        = some ("merge conflicts detected: " ++ GitErr.mergeConflict.message) ∧
    GitOp.push ∉ (performSync c5ManualEnv newSyncManager).trace := by
  have h := c5_manual_conflict_stops c5ManualEnv newSyncManager true
    GitErr.mergeConflict ["notes/a.md"] rfl rfl rfl rfl rfl rfl rfl (by decide)
  exact ⟨rfl, rfl, rfl, rfl, rfl, rfl, rfl, h.1, h.2.1, h.2.2.1, h.2.2.2⟩

/-- C8, counterexample: the default commit message of a dirty-pass
commit is the fixed string "Auto-commit by GitNotes": it is identical
for two different wall-clock instants and contains no digit at all, so
it does not include a timestamp. -/
theorem c8_commit_message_has_no_timestamp :
    commitMessages (performSync (c8Env 11) newSyncManager)
        = ["Auto-commit by GitNotes"] ∧
    commitMessages (performSync (c8Env 222) newSyncManager)
        = commitMessages (performSync (c8Env 11) newSyncManager) ∧
    ("Auto-commit by GitNotes".data.all fun c => !c.isDigit) = true := by
  decide

/-- C8 (amended): when the working copy is dirty at the start of a pass
and staging succeeds, the pass stages all changes and then commits them
with the fixed default message "Auto-commit by GitNotes" (the caller
supplies no message and the message contains no timestamp). -/
theorem c8_default_commit_message (env : SyncEnv) (s : SyncManager)
    (hchk : env.hasLocalChanges = Except.ok true)
    (hstage : env.stageResult = none) :
    (performSync env s).trace.take 3
      = [GitOp.hasLocalChanges, GitOp.stage, GitOp.commit "Auto-commit by GitNotes"] := by
  cases hcm : env.commitResult <;>
    simp [performSync, hchk, hstage, hcm]

theorem c8_default_commit_message_witness :
    (c8Env 11).hasLocalChanges = Except.ok true ∧
    (c8Env 11).stageResult = none ∧
    (performSync (c8Env 11) newSyncManager).trace.take 3
      = [GitOp.hasLocalChanges, GitOp.stage, GitOp.commit "Auto-commit by GitNotes"] :=
  ⟨rfl, rfl, c8_default_commit_message (c8Env 11) newSyncManager rfl rfl⟩

/-- C9: connecting with a non-empty URL, path and token first persists
the credential and records `repoURL` and `localRepoPath`; when the
subsequent open (existing working copy) or clone (fresh copy) fails, the
call returns an error but those mutations persist while `isConnected`
stays false - the operation is not atomic on error. -/
theorem c9_connect_not_atomic (env : ConnectEnv) (rs : RepositoryService)
    (repoURL localPath token : String)
    (hurl : repoURL ≠ "") (hpath : localPath ≠ "") (htok : token ≠ "")
    (hstore : env.storeCredOk = true) (hconn0 : rs.isConnected = false)
    (hfail : (env.gitDirExists = true ∧ env.openOk = false) ∨
      (env.gitDirExists = false ∧ (env.mkdirOk = false ∨ env.cloneOk = false))) :
    ((connectRepository env rs repoURL localPath token).2).isSome = true ∧
    (connectRepository env rs repoURL localPath token).1.repoURL = repoURL ∧
    (connectRepository env rs repoURL localPath token).1.localRepoPath = localPath ∧
    (connectRepository env rs repoURL localPath token).1.storedCred
        = some (repoURL, token) ∧
    (connectRepository env rs repoURL localPath token).1.isConnected = false := by
  rcases hfail with ⟨hg, ho⟩ | ⟨hg, hmc⟩
  · simp [connectRepository, hurl, hpath, htok, hstore, hg, ho, hconn0]
  · rcases hmc with hm | hc
    · simp [connectRepository, cloneRepository, hurl, hpath, htok, hstore, hg, hm, hconn0]
    · by_cases hmk : env.mkdirOk <;>
        simp [connectRepository, cloneRepository, hurl, hpath, htok, hstore, hg,
          hc, hmk, hconn0]

theorem c9_connect_not_atomic_witness :
    ("https://example.com/notes.git" : String) ≠ "" ∧
    ("/home/u/notes" : String) ≠ "" ∧ ("tok123" : String) ≠ "" ∧
    c9Env.storeCredOk = true ∧
    newRepositoryService.isConnected = false ∧
    c9Env.gitDirExists = false ∧ c9Env.cloneOk = false ∧
    (((connectRepository c9Env newRepositoryService
        "https://example.com/notes.git" "/home/u/notes" "tok123").2).isSome = true ∧
     (connectRepository c9Env newRepositoryService
        "https://example.com/notes.git" "/home/u/notes" "tok123").1.repoURL
          = "https://example.com/notes.git" ∧
     (connectRepository c9Env newRepositoryService
        "https://example.com/notes.git" "/home/u/notes" "tok123").1.localRepoPath
          = "/home/u/notes" ∧
     (connectRepository c9Env newRepositoryService
        "https://example.com/notes.git" "/home/u/notes" "tok123").1.storedCred
          = some ("https://example.com/notes.git", "tok123") ∧
     (connectRepository c9Env newRepositoryService
        "https://example.com/notes.git" "/home/u/notes" "tok123").1.isConnected = false) := by
  refine ⟨by decide, by decide, by decide, rfl, rfl, rfl, rfl, ?_⟩
  exact c9_connect_not_atomic c9Env newRepositoryService
    "https://example.com/notes.git" "/home/u/notes" "tok123"
    (by decide) (by decide) (by decide) rfl rfl (Or.inr ⟨rfl, Or.inr rfl⟩)

/-- The phase list used by the interleaving model is exactly the list of
status transitions the embedded pass records on the happy path. -/
theorem happyStatuses_from_performSync :
    ((performSync happyEnv newSyncManager).state.syncHistory.map SyncHistoryEntry.status)
      = happyStatuses := by
  decide

/-- C1, counterexample: the claim that at most one sequencing pass
executes at any instant fails - `TriggerManualSync` consults no
in-flight flag, so after trigger, one phase of pass 0, a second trigger
and one phase of pass 1, the system is in a reachable state in which two
passes are simultaneously mid-execution, their phase transitions
interleaved on the same working copy. -/
theorem c1_two_passes_in_flight :
    SyncReachable c1System ∧ concurrentPasses c1System = 2 := by
  constructor
  · exact SyncReachable.step 1 (SyncReachable.trigger (SyncReachable.step 0
      (SyncReachable.trigger SyncReachable.init)))
  · decide

/-- C1 (amended): `TriggerManualSync` neither rejects nor queues a
trigger that arrives while a pass is in flight: from every reachable
system state a trigger unconditionally starts one more pass, so two
passes can run concurrently on the same working copy. -/
theorem c1_trigger_always_spawns (sys : SyncSystem) (h : SyncReachable sys) :
    SyncReachable (triggerSync sys) ∧
    (triggerSync sys).passes.length = sys.passes.length + 1 :=
  ⟨SyncReachable.trigger h, by simp [triggerSync]⟩

theorem c1_trigger_always_spawns_witness :
    SyncReachable initSystem ∧
    (SyncReachable (triggerSync initSystem) ∧
     (triggerSync initSystem).passes.length = initSystem.passes.length + 1) :=
  ⟨SyncReachable.init, c1_trigger_always_spawns initSystem SyncReachable.init⟩

/-- Every file of a comma-joined list occurs inside the joined string. -/
theorem mem_joinComma_isInfixOf (l : List String) (f : String) (hf : f ∈ l) :
    f.data <:+: (joinComma l).data := by
  induction l with
  | nil => cases hf
  | cons a rest ih =>
    by_cases hr : rest = []
    · subst hr
      rcases List.mem_singleton.mp hf with rfl
      simp [joinComma]
    · rcases List.mem_cons.mp hf with rfl | hmem
      · simp only [joinComma, if_neg hr, String.data_append]
        exact ((List.prefix_append f.data _).trans (List.prefix_append _ _)).isInfix
      · refine (ih hmem).trans ?_
        simp only [joinComma, if_neg hr, String.data_append]
        exact (List.suffix_append _ _).isInfix

theorem smGetSyncStatus_text_isPrefix (s : SyncManager) (d : String) :
    s.currentStatus.text.data <+: (smGetSyncStatus s d).data := by
  unfold smGetSyncStatus
  cases hl : s.lastSyncTime <;> repeat' split
  all_goals simp only [String.data_append, List.append_assoc]
  all_goals
    first
      | exact List.prefix_refl _
      | exact List.prefix_append _ _

theorem smGetSyncStatus_error_detail (s : SyncManager) (d : String)
    (hs : s.currentStatus = SyncStatus.error)
    (hd : d ≠ "No error information available") :
    d.data <:+: (smGetSyncStatus s d).data := by
  unfold smGetSyncStatus
  simp only [hs, hd, ne_eq, not_false_eq_true, and_true, and_false, if_true, if_false,
    reduceCtorEq, if_pos, if_neg, String.data_append]
  exact ((List.suffix_append _ _).trans (List.suffix_append _ _)).isInfix

theorem smGetSyncStatus_conflict_count (s : SyncManager) (d : String)
    (hs : s.currentStatus = SyncStatus.conflict)
    (hne : s.currentConflicts ≠ []) :
    (toString s.currentConflicts.length ++ " files with conflicts").data
      <:+: (smGetSyncStatus s d).data := by
  unfold smGetSyncStatus
  simp only [hs, hne, ne_eq, not_false_eq_true, and_true, and_false, if_true, if_false,
    reduceCtorEq, String.data_append]
  split
  · exact (((List.suffix_append _ _).trans (List.suffix_append _ _)).isInfix).trans
      (List.prefix_append _ _).isInfix
  · exact ((List.suffix_append _ _).trans (List.suffix_append _ _)).isInfix

theorem smGetSyncStatus_conflict_files (s : SyncManager) (d : String) (f : String)
    (hs : s.currentStatus = SyncStatus.conflict)
    (hne : s.currentConflicts ≠ [])
    (hle : s.currentConflicts.length ≤ 3)
    (hf : f ∈ s.currentConflicts) :
    f.data <:+: (smGetSyncStatus s d).data := by
  unfold smGetSyncStatus
  simp only [hs, hne, ne_eq, not_false_eq_true, and_true, and_false, if_true, if_false,
    reduceCtorEq, hle, String.data_append]
  refine (mem_joinComma_isInfixOf s.currentConflicts f hf).trans ?_
  exact ((List.suffix_append _ _).trans (List.suffix_append _ _)).isInfix

/-- C10: the facade status query is total - with no sync manager it
returns "Disconnected" or "Connected" according to the connection flag,
and with a manager it returns the manager status string, which always
begins with the current status display text, embeds the error-detail
string in the Error state (unless it is the "no information" sentinel),
and in the Conflict state embeds the conflicted-file count plus the file
names when there are at most three. -/
theorem c10_sync_status_rendering (g : GitNotesService) (details : String) :
    (g.syncManager = none →
      gnsGetSyncStatus g details
        = (if g.repoService.isConnected then "Connected" else "Disconnected")) ∧
    (∀ sm, g.syncManager = some sm →
      sm.currentStatus.text.data <+: (gnsGetSyncStatus g details).data) ∧
    (∀ sm, g.syncManager = some sm → sm.currentStatus = SyncStatus.error →
      details ≠ "No error information available" →
      details.data <:+: (gnsGetSyncStatus g details).data) ∧
    (∀ sm, g.syncManager = some sm → sm.currentStatus = SyncStatus.conflict →
      sm.currentConflicts ≠ [] →
      (toString sm.currentConflicts.length ++ " files with conflicts").data
          <:+: (gnsGetSyncStatus g details).data ∧
      (sm.currentConflicts.length ≤ 3 →
        ∀ f ∈ sm.currentConflicts,
          f.data <:+: (gnsGetSyncStatus g details).data)) := by
  refine ⟨fun h => ?_, fun sm hsm => ?_, fun sm hsm hs hd => ?_, fun sm hsm hs hne => ?_⟩
  · by_cases hc : g.repoService.isConnected <;> simp [gnsGetSyncStatus, h, hc]
  · simpa only [gnsGetSyncStatus, hsm] using smGetSyncStatus_text_isPrefix sm details
  · simpa only [gnsGetSyncStatus, hsm] using smGetSyncStatus_error_detail sm details hs hd
  · refine ⟨?_, fun hle f hf => ?_⟩
    · simpa only [gnsGetSyncStatus, hsm] using
        smGetSyncStatus_conflict_count sm details hs hne
    · simpa only [gnsGetSyncStatus, hsm] using
        smGetSyncStatus_conflict_files sm details f hs hne hle hf

theorem c10_sync_status_rendering_witness :
    (c10Disconnected.syncManager = none ∧
     gnsGetSyncStatus c10Disconnected "x"
        = (if c10Disconnected.repoService.isConnected then "Connected"
           else "Disconnected")) ∧
    (c10Error.syncManager = some c6ErrorState ∧
     c6ErrorState.currentStatus = SyncStatus.error ∧
     ("auth failed" : String) ≠ "No error information available" ∧
     "auth failed".data <:+: (gnsGetSyncStatus c10Error "auth failed").data) ∧
    (c10Conflicted.syncManager = some c2State1 ∧
     c2State1.currentStatus = SyncStatus.conflict ∧
     c2State1.currentConflicts ≠ [] ∧
     c2State1.currentConflicts.length ≤ 3 ∧
     (toString c2State1.currentConflicts.length ++ " files with conflicts").data
        <:+: (gnsGetSyncStatus c10Conflicted "x").data ∧
     (∀ f ∈ c2State1.currentConflicts,
        f.data <:+: (gnsGetSyncStatus c10Conflicted "x").data)) := by
  refine ⟨⟨rfl, ?_⟩, ⟨rfl, by decide, by decide, ?_⟩,
    ⟨rfl, by decide, by decide, by decide, ?_, ?_⟩⟩
  · exact (c10_sync_status_rendering c10Disconnected "x").1 rfl
  · exact (c10_sync_status_rendering c10Error "auth failed").2.2.1 c6ErrorState rfl
      (by decide) (by decide)
  · exact ((c10_sync_status_rendering c10Conflicted "x").2.2.2 c2State1 rfl
      (by decide) (by decide)).1
  · exact ((c10_sync_status_rendering c10Conflicted "x").2.2.2 c2State1 rfl
      (by decide) (by decide)).2 (by decide)

end GitNotes
